import Mathlib

/-!
Verification of `Reviews/app.py` (iOS App Review Analyzer).

The program is HTTP glue: `search_app` consumes the iTunes search JSON,
`fetch_reviews` consumes the customer-reviews RSS-as-JSON feed, and
`analyze_reviews_openai` formats the fetched reviews into a transcript and
issues two chat-completion requests.  We embed the JSON-processing logic
shallowly: HTTP bodies become `Json` values, Python exceptions become
`Except PyErr`, and the two outbound completion calls are captured as the
list of request payloads the function issues.
-/

namespace AppReview

/-- A JSON value as decoded by `requests`' `.json()`.  JSON numbers are
modelled as integers: every numeric field the program consumes
(`trackId`, rating labels) is integral. -/
inductive Json where
  | null
  | bool (b : Bool)
  | num (n : Int)
  | str (s : String)
  | arr (elems : List Json)
  | obj (fields : List (String × Json))

/-- The Python exceptions reachable on the modelled paths.  `keyError`
carries the missing key (a `KeyError` raised by indexing a dict with the
integer `0` is rendered with key `"0"`); `valueError` carries the string
rejected by `int()`. -/
inductive PyErr where
  | keyError (k : String)
  | valueError (s : String)
  | typeError
  | attrError
  | indexError
  deriving DecidableEq

/-- Python `d.get(k, default)`: `AttributeError` when the receiver is not
a dict. -/
def dictGetD (j : Json) (k : String) (d : Json) : Except PyErr Json :=
  match j with
  | .obj fs => .ok ((fs.lookup k).getD d)
  | _ => .error .attrError

/-- Python `d.get(k)`: the absent-key default `None` is the decoding of
JSON `null`, so the result is again a `Json` value. -/
def dictGetOrNone (j : Json) (k : String) : Except PyErr Json :=
  match j with
  | .obj fs => .ok ((fs.lookup k).getD .null)
  | _ => .error .attrError

/-- Python `d[k]` with a string key: `KeyError` on a dict without the key,
`TypeError` when the receiver is not a dict (indexing a list or a string
with a string key, or subscripting a scalar). -/
def dictIndex (j : Json) (k : String) : Except PyErr Json :=
  match j with
  | .obj fs =>
    match fs.lookup k with
    | some v => .ok v
    | none => .error (.keyError k)
  | _ => .error .typeError

/-- Python truthiness of a decoded JSON value. -/
def pyTruthy : Json → Bool
  | .null => false
  | .bool b => b
  | .num n => n != 0
  | .str s => s != ""
  | .arr l => !l.isEmpty
  | .obj fs => !fs.isEmpty

mutual

/-- Python `repr` of a decoded JSON value.  String escaping inside `repr`
is not modelled (the characters are carried verbatim between quotes);
no claim evaluates `str` on a container. -/
def pyRepr : Json → String
  | .null => "None"
  | .bool b => if b then "True" else "False"
  | .num n => toString n
  | .str s => "\x27" ++ s ++ "\x27"
  | .arr l => "[" ++ pyReprElems l ++ "]"
  | .obj fs => "\x7b" ++ pyReprFields fs ++ "\x7d"

/-- Comma-separated `repr`s of list elements. -/
def pyReprElems : List Json → String
  | [] => ""
  | [x] => pyRepr x
  | x :: y :: rest => pyRepr x ++ ", " ++ pyReprElems (y :: rest)

/-- Comma-separated `repr`s of dict items. -/
def pyReprFields : List (String × Json) → String
  | [] => ""
  | [(k, v)] => "\x27" ++ k ++ "\x27: " ++ pyRepr v
  | (k, v) :: p :: rest =>
    "\x27" ++ k ++ "\x27: " ++ pyRepr v ++ ", " ++ pyReprFields (p :: rest)

end

/-- Python `str` of a decoded JSON value (`str` is the identity on
strings and agrees with `repr` on everything else in scope here:
`None ↦ "None"`, integers print in decimal). -/
def pyStr : Json → String
  | .str s => s
  | v => pyRepr v

/-- Python `v[0]`: first element of a list (or `IndexError`), the 1-char
string for a nonempty string, `KeyError` on a dict (integer key `0`),
`TypeError` on scalars. -/
def pyIndex0 : Json → Except PyErr Json
  | .arr [] => .error .indexError
  | .arr (a :: _) => .ok a
  | .str s =>
    match s.toList with
    | [] => .error .indexError
    | c :: _ => .ok (.str (String.singleton c))
  | .obj _ => .error (.keyError "0")
  | _ => .error .typeError

/-- Value of a run of decimal digit characters. -/
def digitsValue (cs : List Char) : Nat :=
  cs.foldl (fun a c => a * 10 + (c.toNat - 48)) 0

/-- Checks the tail of an `int()` digit run: digits with single
underscores allowed only between digits. -/
def goDigits : List Char → Bool
  | [] => true
  | c :: rest =>
    if c.isDigit then goDigits rest
    else if c = '_' then
      match rest with
      | [] => false
      | d :: _ => d.isDigit && goDigits rest
    else false

/-- A valid `int()` digit run: nonempty, starts with a digit, single
underscores only between digits. -/
def validDigitRun (cs : List Char) : Bool :=
  match cs with
  | [] => false
  | c :: rest => c.isDigit && goDigits rest

/-- The whitespace stripping `int()` applies around the digits (ASCII
whitespace modelled). -/
def trimChars (cs : List Char) : List Char :=
  ((cs.dropWhile Char.isWhitespace).reverse.dropWhile Char.isWhitespace).reverse

/-- Python `int(s)` on a string: surrounding whitespace stripped, an
optional sign, then a digit run (ASCII digits modelled; Unicode digits
and Unicode-only whitespace are out of scope).  `none` means
`ValueError`. -/
def pyParseInt (s : String) : Option Int :=
  match trimChars s.toList with
  | '+' :: rest =>
    if validDigitRun rest then some (Int.ofNat (digitsValue (rest.filter fun c => c ≠ '_')))
    else none
  | '-' :: rest =>
    if validDigitRun rest then some (-(Int.ofNat (digitsValue (rest.filter fun c => c ≠ '_'))))
    else none
  | cs =>
    if validDigitRun cs then some (Int.ofNat (digitsValue (cs.filter fun c => c ≠ '_')))
    else none

/-- Python `int(v)` on a decoded JSON value: identity on integers,
string parsing per `pyParseInt`, `True ↦ 1` / `False ↦ 0`, `TypeError`
on `None`, lists and dicts. -/
def pyIntOfJson : Json → Except PyErr Int
  | .num n => .ok n
  | .bool b => .ok (if b then 1 else 0)
  | .str s =>
    match pyParseInt s with
    | some n => .ok n
    | none => .error (.valueError s)
  | _ => .error .typeError

/-- Embeds `search_app` (app.py lines 16–26), from the decoded search response
body onward: the HTTP GET and `raise_for_status` are external, so the
function takes the decoded JSON body.  Mirrors
`results = r.json().get("results", []); if not results: return None, None;
app = results[0]; return str(app.get("trackId")), app.get("trackName")`.
Python `None` is the decoding of JSON `null`, so the result pair is two
`Json` values. -/
def search_app (body : Json) : Except PyErr (Json × Json) :=
  match dictGetD body "results" (.arr []) with
  | .error err => .error err
  | .ok results =>
    if pyTruthy results then
      match pyIndex0 results with
      | .error err => .error err
      | .ok app =>
        match dictGetOrNone app "trackId" with
        | .error err => .error err
        | .ok tid =>
          match dictGetOrNone app "trackName" with
          | .error err => .error err
          | .ok tname => .ok (.str (pyStr tid), tname)
    else
      .ok (.null, .null)

/-- Outcome of the orchestration's branch on the lookup result
(app.py lines 99–104): `noAppError` renders the "No app found matching"
message and stops; `proceedToFetch` renders the success banner and calls
`fetch_reviews`. -/
inductive LookupOutcome where
  | noAppError
  | proceedToFetch
  deriving DecidableEq

/-- The `if not app_id:` branch of the Streamlit orchestration
(app.py lines 99–104), as a function of the first component returned by
`search_app`. -/
def lookupBranch (app_id : Json) : LookupOutcome :=
  if pyTruthy app_id then .proceedToFetch else .noAppError

/-- One review record as built by `fetch_reviews`: the dict
`{"title": ..., "content": ..., "rating": ...}`.  Title and content are
whatever JSON values the feed carries; the rating is the Python `int`
produced by `int(...)`. -/
structure Review where
  title : Json
  content : Json
  rating : Int

/-- Embeds `int(e.get("im:rating", \x7b\x7d).get("label", 0))` (app.py line 40).  The
inner default `0` is the Python integer, hence `.num 0`. -/
def ratingOf (e : Json) : Except PyErr Int :=
  match dictGetD e "im:rating" (.obj []) with
  | .error err => .error err
  | .ok r =>
    match dictGetD r "label" (.num 0) with
    | .error err => .error err
    | .ok lab => pyIntOfJson lab

/-- The dict built for one feed entry (app.py lines 37–41): evaluation
order is title, content, rating, and the first raised exception
propagates. -/
def reviewOfEntry (e : Json) : Except PyErr Review :=
  match dictIndex e "title" with
  | .error err => .error err
  | .ok t =>
    match dictIndex t "label" with
    | .error err => .error err
    | .ok tl =>
      match dictIndex e "content" with
      | .error err => .error err
      | .ok c =>
        match dictIndex c "label" with
        | .error err => .error err
        | .ok cl =>
          match ratingOf e with
          | .error err => .error err
          | .ok r => .ok ⟨tl, cl, r⟩

/-- The Python slice `[1:limit+1]` applied to the value found under
`feed.entry` (app.py line 34).  Slicing a string yields its characters
as 1-character strings when iterated; slicing any other non-list value
raises `TypeError`. -/
def sliceEntries (v : Json) (limit : Nat) : Except PyErr (List Json) :=
  match v with
  | .arr l => .ok ((l.drop 1).take limit)
  | .str s => .ok (((s.toList.drop 1).take limit).map fun c => Json.str (String.singleton c))
  | _ => .error .typeError

/-- The `for e in entries` accumulation loop of `fetch_reviews`
(app.py lines 35–41): builds the records in order, propagating the first
exception. -/
def buildReviews : List Json → Except PyErr (List Review)
  | [] => .ok []
  | e :: rest =>
    match reviewOfEntry e with
    | .error err => .error err
    | .ok rv =>
      match buildReviews rest with
      | .error err => .error err
      | .ok rs => .ok (rv :: rs)

/-- Embeds `fetch_reviews` (app.py lines 29–42) from the decoded feed body
onward: `entries = resp.json().get("feed", {}).get("entry", [])[1:limit+1]`
followed by the record-building loop. -/
def fetch_reviews (body : Json) (limit : Nat) : Except PyErr (List Review) :=
  match dictGetD body "feed" (.obj []) with
  | .error err => .error err
  | .ok feed =>
    match dictGetD feed "entry" (.arr []) with
    | .error err => .error err
    | .ok entryVal =>
      match sliceEntries entryVal limit with
      | .error err => .error err
      | .ok entries => buildReviews entries

/-- One line of the analysis transcript:
`f"{i+1}. [{r['rating']}/5] {r['title']} - {r['content']}"`
(app.py line 49), where `i` is the 0-based `enumerate` index and the
f-string formats each field through `str`. -/
def reviewLine (i : Nat) (r : Review) : String :=
  toString (i + 1) ++ ". [" ++ toString r.rating ++ "/5] " ++
    pyStr r.title ++ " - " ++ pyStr r.content

/-- The transcript `text` built by `analyze_reviews_openai`
(app.py lines 48–51): the formatted lines joined by a blank line. -/
def transcript (reviews : List Review) : String :=
  String.intercalate "\n\n" (reviews.enum.map fun p => reviewLine p.1 p.2)

/-- One chat message of a completion request. -/
structure Message where
  role : String
  content : String

/-- One `openai.ChatCompletion.create` request payload. -/
structure CompletionRequest where
  model : String
  messages : List Message
  temperature : Rat
  max_tokens : Nat

/-- The shared system message content (app.py lines 55 and 72). -/
def systemPrompt : String := "You are a product growth analyst."

/-- The `theme_messages` list (app.py lines 54–61). -/
def theme_messages (text : String) : List Message :=
  [ ⟨"system", systemPrompt⟩,
    ⟨"user",
      "Summarize the following user reviews:\n\n" ++ text ++
      "\n\nExtract 3 key positive themes, 3 key pain points, and an overall sentiment (positive/negative/mixed)."⟩ ]

/-- The `improve_messages` list (app.py lines 71–78). -/
def improve_messages (text : String) : List Message :=
  [ ⟨"system", systemPrompt⟩,
    ⟨"user",
      "Based on these user reviews, list 3 specific, high-impact feature or UX improvements the product team should prioritize:\n\n" ++
      text ++ "\n\nProvide each improvement as a short actionable bullet."⟩ ]

/-- The two `openai.ChatCompletion.create` calls issued by
`analyze_reviews_openai` (app.py lines 62–67 and 79–84), in issue order.
The network responses are external to the embedding; the function's
deterministic content is exactly these two payloads, both built from the
single `transcript`. -/
def analyze_reviews_requests (reviews : List Review) : List CompletionRequest :=
  let text := transcript reviews
  [ ⟨"gpt-4", theme_messages text, 0, 400⟩,
    ⟨"gpt-4", improve_messages text, 0, 200⟩ ]

/-- The transcript format as the spec states it: reviews enumerated with
1-based indices in the order received, each line
`{index}. [{rating}/5] {title} - {content}`, joined by a blank line.
Stated from the spec's words, for comparison with `transcript`. -/
def specTranscript (reviews : List Review) : String :=
  String.intercalate "\n\n" ((reviews.enumFrom 1).map fun p =>
    toString p.1 ++ ". [" ++ toString p.2.rating ++ "/5] " ++
      pyStr p.2.title ++ " - " ++ pyStr p.2.content)

/-- A well-formed sample feed entry whose rating label is `lab`, used as
concrete input in witnesses. -/
def sampleEntry (lab : String) : Json :=
  .obj [("title", .obj [("label", .str "t")]),
        ("content", .obj [("label", .str "c")]),
        ("im:rating", .obj [("label", .str lab)])]

/-- Core digit printing never shortens its accumulator. -/
theorem toDigitsCore_length_le (b : Nat) :
    ∀ (f n : Nat) (ds : List Char), ds.length ≤ (Nat.toDigitsCore b f n ds).length := by
  intro f
  induction f with
  | zero => intro n ds; simp [Nat.toDigitsCore]
  | succ f ih =>
    intro n ds
    simp only [Nat.toDigitsCore]
    split
    · simp
    · exact le_trans (by simp) (ih _ _)

/-- With nonzero fuel, core digit printing emits at least one character. -/
theorem toDigitsCore_succ_ne_nil (b f n : Nat) (ds : List Char) :
    Nat.toDigitsCore b (f + 1) n ds ≠ [] := by
  simp only [Nat.toDigitsCore]
  split
  · exact List.cons_ne_nil _ _
  · intro h
    have h1 := toDigitsCore_length_le b f (n / b) (Nat.digitChar (n % b) :: ds)
    rw [h] at h1
    simp at h1

/-- The decimal rendering of a natural number is never empty. -/
theorem natRepr_ne_empty (n : Nat) : Nat.repr n ≠ "" := by
  intro h
  have hd : Nat.toDigits 10 n = [] := congrArg String.data h
  exact toDigitsCore_succ_ne_nil 10 n n [] hd

/-- The decimal rendering of an integer is never empty. -/
theorem int_toString_ne_empty (n : Int) : toString n ≠ "" := by
  cases n with
  | ofNat m =>
    show Nat.repr m ≠ ""
    exact natRepr_ne_empty m
  | negSucc m =>
    show "-" ++ Nat.repr (m + 1) ≠ ""
    intro h
    have hl := congrArg String.length h
    rw [String.length_append] at hl
    have h1 : ("-" : String).length = 1 := rfl
    have h2 : ("" : String).length = 0 := rfl
    omega

/-- Shifting the enumeration start by one and printing `index + 1` agrees
with printing the index over the shifted enumeration. -/
theorem enumFrom_reviewLine_shift (l : List Review) :
    ∀ n : Nat, (l.enumFrom n).map (fun p => reviewLine p.1 p.2) =
      (l.enumFrom (n + 1)).map (fun p =>
        toString p.1 ++ ". [" ++ toString p.2.rating ++ "/5] " ++
          pyStr p.2.title ++ " - " ++ pyStr p.2.content) := by
  induction l with
  | nil => intro n; rfl
  | cons r rest ih =>
    intro n
    simp only [List.enumFrom_cons, List.map_cons]
    rw [ih (n + 1)]
    rfl

/-- When every entry of a list maps to a record, the record-building loop
succeeds and preserves the length. -/
theorem buildReviews_ok_of_forall_ok :
    ∀ l : List Json, (∀ e ∈ l, ∃ rv, reviewOfEntry e = Except.ok rv) →
      ∃ revs, buildReviews l = Except.ok revs ∧ revs.length = l.length := by
  intro l
  induction l with
  | nil => intro _; exact ⟨[], rfl, rfl⟩
  | cons e rest ih =>
    intro h
    obtain ⟨rv, hrv⟩ := h e (List.mem_cons_self e rest)
    obtain ⟨revs, hrevs, hlen⟩ := ih fun x hx => h x (List.mem_cons_of_mem e hx)
    refine ⟨rv :: revs, ?_, by simp [hlen]⟩
    simp [buildReviews, hrv, hrevs]

/-- C1: the claim as stated is false.  A processed entry whose
`im:rating.label` is the non-numeric string `"abc"` makes `fetch_reviews`
raise `ValueError` instead of yielding rating `0`, and a numeric label
`"7"` yields rating `7`, outside `[0, 5]`. -/
theorem C1_claim_counterexample :
    fetch_reviews (Json.obj [("feed", Json.obj [("entry", Json.arr
        [Json.obj [], sampleEntry "abc"])])]) 50
      = Except.error (PyErr.valueError "abc") ∧
    fetch_reviews (Json.obj [("feed", Json.obj [("entry", Json.arr
        [Json.obj [], sampleEntry "7"])])]) 50
      = Except.ok [⟨Json.str "t", Json.str "c", 7⟩] :=
  ⟨rfl, rfl⟩

/-- C1 (amended): for a processed entry with well-formed title and
content, the rating is `int` of the `im:rating.label` value: an absent
`im:rating` key or an absent `label` key yields `0`; a numeric label
yields its parsed value unclamped (values outside `[0, 5]` pass through);
a non-numeric label raises `ValueError` rather than defaulting to `0`. -/
theorem C1_rating_amended :
    (∀ fs ts cs tl cl,
        List.lookup "title" fs = some (Json.obj ts) →
        List.lookup "label" ts = some tl →
        List.lookup "content" fs = some (Json.obj cs) →
        List.lookup "label" cs = some cl →
        List.lookup "im:rating" fs = none →
        reviewOfEntry (Json.obj fs) = Except.ok ⟨tl, cl, 0⟩) ∧
    (∀ fs ts cs tl cl gs,
        List.lookup "title" fs = some (Json.obj ts) →
        List.lookup "label" ts = some tl →
        List.lookup "content" fs = some (Json.obj cs) →
        List.lookup "label" cs = some cl →
        List.lookup "im:rating" fs = some (Json.obj gs) →
        List.lookup "label" gs = none →
        reviewOfEntry (Json.obj fs) = Except.ok ⟨tl, cl, 0⟩) ∧
    (∀ fs ts cs tl cl gs s n,
        List.lookup "title" fs = some (Json.obj ts) →
        List.lookup "label" ts = some tl →
        List.lookup "content" fs = some (Json.obj cs) →
        List.lookup "label" cs = some cl →
        List.lookup "im:rating" fs = some (Json.obj gs) →
        List.lookup "label" gs = some (Json.str s) →
        pyParseInt s = some n →
        reviewOfEntry (Json.obj fs) = Except.ok ⟨tl, cl, n⟩) ∧
    (∀ fs ts cs tl cl gs s,
        List.lookup "title" fs = some (Json.obj ts) →
        List.lookup "label" ts = some tl →
        List.lookup "content" fs = some (Json.obj cs) →
        List.lookup "label" cs = some cl →
        List.lookup "im:rating" fs = some (Json.obj gs) →
        List.lookup "label" gs = some (Json.str s) →
        pyParseInt s = none →
        reviewOfEntry (Json.obj fs) = Except.error (PyErr.valueError s)) := by
  refine ⟨?_, ?_, ?_, ?_⟩
  · intro fs ts cs tl cl ht htl hc hcl hr
    simp [reviewOfEntry, dictIndex, dictGetD, ratingOf, pyIntOfJson, ht, htl, hc, hcl, hr]
  · intro fs ts cs tl cl gs ht htl hc hcl hr hrl
    simp [reviewOfEntry, dictIndex, dictGetD, ratingOf, pyIntOfJson, ht, htl, hc, hcl, hr, hrl]
  · intro fs ts cs tl cl gs s n ht htl hc hcl hr hrl hp
    simp [reviewOfEntry, dictIndex, dictGetD, ratingOf, pyIntOfJson, ht, htl, hc, hcl, hr,
      hrl, hp]
  · intro fs ts cs tl cl gs s ht htl hc hcl hr hrl hp
    simp [reviewOfEntry, dictIndex, dictGetD, ratingOf, pyIntOfJson, ht, htl, hc, hcl, hr,
      hrl, hp]

/-- C1 (amended), witnessed at concrete entries: label `"7"` gives the
unclamped rating `7`, and a missing `im:rating` key gives `0`. -/
theorem C1_rating_amended_witness :
    reviewOfEntry (sampleEntry "7") = Except.ok ⟨Json.str "t", Json.str "c", 7⟩ ∧
    reviewOfEntry (Json.obj [("title", Json.obj [("label", Json.str "t")]),
        ("content", Json.obj [("label", Json.str "c")])])
      = Except.ok ⟨Json.str "t", Json.str "c", 0⟩ :=
  ⟨C1_rating_amended.2.2.1 _ _ _ _ _ _ "7" 7 rfl rfl rfl rfl rfl rfl rfl,
   C1_rating_amended.1 _ _ _ _ _ rfl rfl rfl rfl rfl⟩

/-- C2: for a feed whose entry array has `n ≥ 1` elements, all of whose
sliced entries are well-formed, and any requested count `k`, the fetch
discards the zeroth entry and returns exactly `min (n - 1) k` records,
never more than `k`. -/
theorem C2_fetch_count (fs gs : List (String × Json)) (es : List Json) (k : Nat)
    (hfeed : List.lookup "feed" fs = some (Json.obj gs))
    (hentry : List.lookup "entry" gs = some (Json.arr es))
    (hn : 1 ≤ es.length)
    (hok : ∀ e ∈ (es.drop 1).take k, ∃ rv, reviewOfEntry e = Except.ok rv) :
    ∃ revs, fetch_reviews (Json.obj fs) k = Except.ok revs ∧
      revs.length = min (es.length - 1) k ∧ revs.length ≤ k := by
  obtain ⟨revs, hrevs, hlen⟩ := buildReviews_ok_of_forall_ok _ hok
  have hlen2 : revs.length = min (es.length - 1) k := by
    rw [hlen, List.length_take, List.length_drop, Nat.min_comm]
  refine ⟨revs, ?_, hlen2, by rw [hlen2]; exact Nat.min_le_right _ _⟩
  rw [List.drop_one] at hrevs
  simp [fetch_reviews, dictGetD, hfeed, hentry, sliceEntries, hrevs]

/-- C2, witnessed at the spec's example: a feed with one metadata banner
plus five reviews and a requested count of `50` yields exactly five
records. -/
theorem C2_fetch_count_witness :
    ∃ revs, fetch_reviews (Json.obj [("feed", Json.obj [("entry", Json.arr
        [Json.obj [], sampleEntry "5", sampleEntry "5", sampleEntry "5",
         sampleEntry "5", sampleEntry "5"])])]) 50 = Except.ok revs ∧
      revs.length = 5 ∧ revs.length ≤ 50 :=
  C2_fetch_count _ _
    [Json.obj [], sampleEntry "5", sampleEntry "5", sampleEntry "5",
     sampleEntry "5", sampleEntry "5"] 50 rfl rfl (by decide)
    (by
      intro e he
      have h5 : (([Json.obj [], sampleEntry "5", sampleEntry "5", sampleEntry "5",
          sampleEntry "5", sampleEntry "5"].drop 1).take 50)
          = [sampleEntry "5", sampleEntry "5", sampleEntry "5",
             sampleEntry "5", sampleEntry "5"] := rfl
      rw [h5] at he
      simp at he
      subst he
      exact ⟨⟨Json.str "t", Json.str "c", 5⟩, rfl⟩)

/-- C3: the transcript built by the analysis step enumerates the reviews
with 1-based indices in the order received, embeds each record's rating,
title and content verbatim in the line
`{index}. [{rating}/5] {title} - {content}`, and joins consecutive lines
with a blank-line separator — i.e. it coincides with the spec-side
`specTranscript`. -/
theorem C3_transcript_format (reviews : List Review) :
    transcript reviews = specTranscript reviews := by
  unfold transcript specTranscript
  rw [show reviews.enum = reviews.enumFrom 0 from rfl,
    enumFrom_reviewLine_shift reviews 0]

/-- C3, witnessed at a concrete two-review list. -/
theorem C3_transcript_format_witness :
    transcript [⟨Json.str "Good", Json.str "Nice app", 5⟩,
        ⟨Json.str "Bad", Json.str "Crashes", 1⟩]
      = specTranscript [⟨Json.str "Good", Json.str "Nice app", 5⟩,
          ⟨Json.str "Bad", Json.str "Crashes", 1⟩] :=
  C3_transcript_format _

/-- C6: the analysis step is total in the review list: any list, the
empty one included, yields exactly two issued completion requests, and
the empty list produces the empty transcript as its degenerate prompt. -/
theorem C6_analysis_any_length :
    (∀ reviews : List Review, (analyze_reviews_requests reviews).length = 2) ∧
    transcript [] = "" ∧
    (analyze_reviews_requests []).length = 2 :=
  ⟨fun _ => rfl, rfl, rfl⟩

/-- C7: every analysis run issues exactly two requests in order, both
with system content "You are a product growth analyst." and temperature
`0.0`, the first capped at 400 output tokens and the second at 200, and
both embed the same transcript string in their user message. -/
theorem C7_two_requests (reviews : List Review) :
    ∃ r1 r2, analyze_reviews_requests reviews = [r1, r2] ∧
      r1.messages.head? = some ⟨"system", "You are a product growth analyst."⟩ ∧
      r2.messages.head? = some ⟨"system", "You are a product growth analyst."⟩ ∧
      r1.temperature = 0 ∧ r2.temperature = 0 ∧
      r1.max_tokens = 400 ∧ r2.max_tokens = 200 ∧
      (∃ m ∈ r1.messages, m.role = "user" ∧
        ∃ a b, m.content = a ++ transcript reviews ++ b) ∧
      (∃ m ∈ r2.messages, m.role = "user" ∧
        ∃ a b, m.content = a ++ transcript reviews ++ b) := by
  refine ⟨_, _, rfl, rfl, rfl, rfl, rfl, rfl, rfl, ?_, ?_⟩
  · exact ⟨_, List.mem_cons_of_mem _ (List.mem_cons_self _ _), rfl,
      "Summarize the following user reviews:\n\n",
      "\n\nExtract 3 key positive themes, 3 key pain points, and an overall sentiment (positive/negative/mixed).",
      rfl⟩
  · exact ⟨_, List.mem_cons_of_mem _ (List.mem_cons_self _ _), rfl,
      "Based on these user reviews, list 3 specific, high-impact feature or UX improvements the product team should prioritize:\n\n",
      "\n\nProvide each improvement as a short actionable bullet.",
      rfl⟩

/-- C7, witnessed at the empty review list. -/
theorem C7_two_requests_witness :
    ∃ r1 r2, analyze_reviews_requests [] = [r1, r2] ∧
      r1.messages.head? = some ⟨"system", "You are a product growth analyst."⟩ ∧
      r2.messages.head? = some ⟨"system", "You are a product growth analyst."⟩ ∧
      r1.temperature = 0 ∧ r2.temperature = 0 ∧
      r1.max_tokens = 400 ∧ r2.max_tokens = 200 ∧
      (∃ m ∈ r1.messages, m.role = "user" ∧
        ∃ a b, m.content = a ++ transcript [] ++ b) ∧
      (∃ m ∈ r2.messages, m.role = "user" ∧
        ∃ a b, m.content = a ++ transcript [] ++ b) :=
  C7_two_requests []

/-- C4: an empty `results` array makes the lookup return the pair
`(None, None)` without raising, and the orchestration branch on that
identifier shows the "no app found" error instead of proceeding to the
fetch step. -/
theorem C4_empty_results (fs : List (String × Json))
    (h : List.lookup "results" fs = some (Json.arr [])) :
    search_app (Json.obj fs) = Except.ok (Json.null, Json.null) ∧
    lookupBranch Json.null = LookupOutcome.noAppError := by
  constructor
  · simp [search_app, dictGetD, h, pyTruthy, List.isEmpty]
  · rfl

/-- C4, witnessed at the concrete body with an empty `results` array. -/
theorem C4_empty_results_witness :
    search_app (Json.obj [("results", Json.arr [])])
      = Except.ok (Json.null, Json.null) ∧
    lookupBranch Json.null = LookupOutcome.noAppError :=
  C4_empty_results [("results", Json.arr [])] rfl

/-- C5: with at least one match whose first result carries an integral
`trackId` and a `trackName`, the lookup returns the decimal string of
that `trackId` — a non-empty identifier — and the first result's
`trackName` as display name. -/
theorem C5_first_match (fs rfs : List (String × Json)) (rest : List Json)
    (n : Int) (nm : Json)
    (hres : List.lookup "results" fs = some (Json.arr (Json.obj rfs :: rest)))
    (hid : List.lookup "trackId" rfs = some (Json.num n))
    (hnm : List.lookup "trackName" rfs = some nm) :
    search_app (Json.obj fs) = Except.ok (Json.str (toString n), nm) ∧
    toString n ≠ "" := by
  constructor
  · simp [search_app, dictGetD, hres, pyTruthy, List.isEmpty, pyIndex0,
      dictGetOrNone, hid, hnm, pyStr, pyRepr]
  · exact int_toString_ne_empty n

/-- C5, witnessed at the spec's example app: `trackId` `123456789` and
`trackName` `"Testcraft"`. -/
theorem C5_first_match_witness :
    search_app (Json.obj [("results", Json.arr [Json.obj
        [("trackId", Json.num 123456789), ("trackName", Json.str "Testcraft")]])])
      = Except.ok (Json.str (toString (123456789 : Int)), Json.str "Testcraft") ∧
    toString (123456789 : Int) ≠ "" :=
  C5_first_match _ _ [] 123456789 (Json.str "Testcraft") rfl rfl rfl

/-- C8: an entry missing `title`, `content`, or either nested `label` key
makes the record construction raise `KeyError` on exactly that key, while
an entry with both labels but no `im:rating` key still succeeds with
rating `0` — only the rating field is optional. -/
theorem C8_required_keys :
    (∀ fs, List.lookup "title" fs = none →
        reviewOfEntry (Json.obj fs) = Except.error (PyErr.keyError "title")) ∧
    (∀ fs ts, List.lookup "title" fs = some (Json.obj ts) →
        List.lookup "label" ts = none →
        reviewOfEntry (Json.obj fs) = Except.error (PyErr.keyError "label")) ∧
    (∀ fs ts tl, List.lookup "title" fs = some (Json.obj ts) →
        List.lookup "label" ts = some tl →
        List.lookup "content" fs = none →
        reviewOfEntry (Json.obj fs) = Except.error (PyErr.keyError "content")) ∧
    (∀ fs ts tl cs, List.lookup "title" fs = some (Json.obj ts) →
        List.lookup "label" ts = some tl →
        List.lookup "content" fs = some (Json.obj cs) →
        List.lookup "label" cs = none →
        reviewOfEntry (Json.obj fs) = Except.error (PyErr.keyError "label")) ∧
    (∀ fs ts tl cs cl, List.lookup "title" fs = some (Json.obj ts) →
        List.lookup "label" ts = some tl →
        List.lookup "content" fs = some (Json.obj cs) →
        List.lookup "label" cs = some cl →
        List.lookup "im:rating" fs = none →
        reviewOfEntry (Json.obj fs) = Except.ok ⟨tl, cl, 0⟩) := by
  refine ⟨?_, ?_, ?_, ?_, ?_⟩
  · intro fs ht
    simp [reviewOfEntry, dictIndex, ht]
  · intro fs ts ht htl
    simp [reviewOfEntry, dictIndex, ht, htl]
  · intro fs ts tl ht htl hc
    simp [reviewOfEntry, dictIndex, ht, htl, hc]
  · intro fs ts tl cs ht htl hc hcl
    simp [reviewOfEntry, dictIndex, ht, htl, hc, hcl]
  · intro fs ts tl cs cl ht htl hc hcl hr
    simp [reviewOfEntry, dictIndex, dictGetD, ratingOf, pyIntOfJson, ht, htl, hc, hcl, hr]

/-- C8, witnessed at concrete entries: a missing `title` key raises
`KeyError`, and a title/content-only entry succeeds with rating `0`. -/
theorem C8_required_keys_witness :
    reviewOfEntry (Json.obj [("content", Json.obj [("label", Json.str "c")])])
      = Except.error (PyErr.keyError "title") ∧
    reviewOfEntry (Json.obj [("title", Json.obj [("label", Json.str "onlyT")]),
        ("content", Json.obj [("label", Json.str "onlyC")])])
      = Except.ok ⟨Json.str "onlyT", Json.str "onlyC", 0⟩ :=
  ⟨C8_required_keys.1 _ rfl,
   C8_required_keys.2.2.2.2 _ _ _ _ _ rfl rfl rfl rfl rfl⟩

/-- C9: with a non-empty `results` array whose first result has no
`trackId` key, the lookup returns the non-empty string "None" (the `str`
coercion of Python `None`), which the orchestration treats as a
successful lookup: it proceeds to the fetch step instead of showing the
no-app error. -/
theorem C9_missing_trackId (fs rfs : List (String × Json)) (rest : List Json)
    (hres : List.lookup "results" fs = some (Json.arr (Json.obj rfs :: rest)))
    (hid : List.lookup "trackId" rfs = none) :
    search_app (Json.obj fs)
      = Except.ok (Json.str "None", (List.lookup "trackName" rfs).getD Json.null) ∧
    Json.str "None" ≠ Json.str "" ∧
    lookupBranch (Json.str "None") = LookupOutcome.proceedToFetch := by
  refine ⟨?_, by simp, rfl⟩
  simp [search_app, dictGetD, hres, pyTruthy, List.isEmpty, pyIndex0,
    dictGetOrNone, hid, pyStr, pyRepr]

/-- C9, witnessed at a concrete body whose single result has only a
`trackName`. -/
theorem C9_missing_trackId_witness :
    search_app (Json.obj [("results", Json.arr
        [Json.obj [("trackName", Json.str "X")]])])
      = Except.ok (Json.str "None", Json.str "X") ∧
    Json.str "None" ≠ Json.str "" ∧
    lookupBranch (Json.str "None") = LookupOutcome.proceedToFetch :=
  C9_missing_trackId [("results", Json.arr [Json.obj [("trackName", Json.str "X")]])]
    [("trackName", Json.str "X")] [] rfl rfl

/-- C10: an HTTP-successful reviews body with no `feed` key, or a `feed`
object with no `entry` key, makes the fetch return the empty list rather
than raising. -/
theorem C10_missing_feed_or_entry :
    (∀ (fs : List (String × Json)) (k : Nat), List.lookup "feed" fs = none →
        fetch_reviews (Json.obj fs) k = Except.ok []) ∧
    (∀ (fs gs : List (String × Json)) (k : Nat),
        List.lookup "feed" fs = some (Json.obj gs) →
        List.lookup "entry" gs = none →
        fetch_reviews (Json.obj fs) k = Except.ok []) := by
  constructor
  · intro fs k h
    simp [fetch_reviews, dictGetD, h, sliceEntries, buildReviews]
  · intro fs gs k hf he
    simp [fetch_reviews, dictGetD, hf, he, sliceEntries, buildReviews]

/-- C10, witnessed at concrete bodies: one with no `feed` key and one
whose `feed` object has no `entry` key. -/
theorem C10_missing_feed_or_entry_witness :
    fetch_reviews (Json.obj [("other", Json.null)]) 50 = Except.ok [] ∧
    fetch_reviews (Json.obj [("feed", Json.obj [("author", Json.null)])]) 50
      = Except.ok [] :=
  ⟨C10_missing_feed_or_entry.1 _ 50 rfl,
   C10_missing_feed_or_entry.2 _ _ 50 rfl rfl⟩

end AppReview
